import Mathlib

/-!
Verification development for the PNGine animation runtime.

The repository ships the public C API header (`src/native/include/pngine.h`)
and the Android JNI bridge (`src/native/android/.../pngine_jni.c`).  The
engine implementation behind the header is not part of the sources, so the
engine operations below are modelled from the specification (lifecycle state
machine, bytecode validation, frame executor, diagnostics counters, error
reporter), while the JNI bridge functions are shallow embeddings of the C
code in `pngine_jni.c`.  Machine integers are modelled as `Int`/`Nat` with
explicit `% 2^w` where the packing into a `uint32` matters.
-/

-- ============================================================================
-- Error codes, taken verbatim from `src/native/include/pngine.h` (PngineError)
-- ============================================================================

/-- Success code `PNGINE_OK` from pngine.h. -/
def PNGINE_OK : Int := 0

/-- Error code: `pngine_init()` not called. -/
def PNGINE_ERROR_NOT_INITIALIZED : Int := -1

/-- Error code: `pngine_init()` already called. -/
def PNGINE_ERROR_ALREADY_INITIALIZED : Int := -2

/-- Error code: GPU context creation failed. -/
def PNGINE_ERROR_CONTEXT_FAILED : Int := -3

/-- Error code: invalid bytecode format. -/
def PNGINE_ERROR_BYTECODE_INVALID : Int := -4

/-- Error code: surface creation failed. -/
def PNGINE_ERROR_SURFACE_FAILED : Int := -5

/-- Error code: shader compilation failed. -/
def PNGINE_ERROR_SHADER_COMPILE : Int := -6

/-- Error code: pipeline creation failed. -/
def PNGINE_ERROR_PIPELINE_CREATE : Int := -7

/-- Error code: surface texture unavailable. -/
def PNGINE_ERROR_TEXTURE_UNAVAIL : Int := -8

/-- Error code: resource ID not found. -/
def PNGINE_ERROR_RESOURCE_NOT_FOUND : Int := -9

/-- Error code: memory allocation failed. -/
def PNGINE_ERROR_OUT_OF_MEMORY : Int := -10

/-- Error code: invalid argument. -/
def PNGINE_ERROR_INVALID_ARGUMENT : Int := -11

/-- Error code: render pass failed. -/
def PNGINE_ERROR_RENDER_FAILED : Int := -12

/-- Error code: compute pass failed. -/
def PNGINE_ERROR_COMPUTE_FAILED : Int := -13

/-- The list of all defined error codes of the `PngineError` enum. -/
def definedErrorCodes : List Int :=
  [0, -1, -2, -3, -4, -5, -6, -7, -8, -9, -10, -11, -12, -13]

-- ============================================================================
-- Runtime lifecycle (process-wide state), modelled from spec section 4.1
-- ============================================================================

/-- Modelled from the spec: the process-wide lifecycle state of the runtime
(`Uninitialized` before `pngine_init` and after `pngine_shutdown`, `Ready`
in between).  The engine implementation holding this state is not under
`src/`. -/
inductive RuntimeState where
  | uninitialized
  | ready
deriving DecidableEq

/-- Modelled from the spec: the process-wide runtime context manipulated by
`pngine_init` / `pngine_shutdown`. -/
structure GlobalState where
  runtime : RuntimeState

/-- Modelled from the spec: `pngine_init` transitions Uninitialized to Ready,
fails with AlreadyInitialized when called twice without an intervening
shutdown, and fails with ContextFailed when the GPU context cannot be
acquired (the environment outcome `ctxOk` models the GPU context
acquisition). -/
def pngine_init (ctxOk : Bool) (g : GlobalState) : Int × GlobalState :=
  if g.runtime = RuntimeState.ready then
    (PNGINE_ERROR_ALREADY_INITIALIZED, g)
  else if ctxOk = false then
    (PNGINE_ERROR_CONTEXT_FAILED, g)
  else
    (PNGINE_OK, { runtime := RuntimeState.ready })

/-- Modelled from the spec: `pngine_is_initialized` queries the lifecycle
state. -/
def pngine_is_initialized (g : GlobalState) : Bool :=
  g.runtime = RuntimeState.ready

/-- Modelled from the spec: `pngine_shutdown` returns the process-wide state
to Uninitialized. -/
def pngine_shutdown (_g : GlobalState) : GlobalState :=
  { runtime := RuntimeState.uninitialized }

-- ============================================================================
-- Diagnostics counters, modelled from spec sections 2 and 4.6
-- ============================================================================

/-- Modelled from the spec: the per-animation diagnostics counters
(compute passes, compute pipelines, bind groups, dispatches, render passes,
draws).  They accumulate across render calls until explicitly reset. -/
structure Counters where
  computePasses : Nat
  computePipelines : Nat
  bindGroups : Nat
  dispatches : Nat
  renderPasses : Nat
  draws : Nat

/-- The all-zero counter snapshot used at animation creation and by
`pngine_anim_reset_counters`. -/
def zeroCounters : Counters :=
  { computePasses := 0, computePipelines := 0, bindGroups := 0,
    dispatches := 0, renderPasses := 0, draws := 0 }

-- ============================================================================
-- Animation state, modelled from spec section 3 (data model)
-- ============================================================================

/-- Modelled from the spec: the state behind an opaque `PngineAnimation*`
handle — current width/height, the monotonic frame counter, the diagnostics
counters, the per-animation last error, and the open-encoder / open-render-
pass depths that `pngine_debug_render_pass_status` inspects. -/
structure Animation where
  width : Nat
  height : Nat
  frameCount : Nat
  counters : Counters
  lastError : Int
  encoderDepth : Nat
  passDepth : Nat

/-- The freshly created animation state for given surface dimensions. -/
def initialAnimation (w h : Nat) : Animation :=
  { width := w, height := h, frameCount := 0, counters := zeroCounters,
    lastError := PNGINE_OK, encoderDepth := 0, passDepth := 0 }

-- ============================================================================
-- Accessors of the C API, modelled from the header documentation
-- ============================================================================

/-- Modelled from the spec: `pngine_get_width` returns the animation's
current width in pixels. -/
def pngine_get_width (a : Animation) : Nat := a.width

/-- Modelled from the spec: `pngine_get_height` returns the animation's
current height in pixels. -/
def pngine_get_height (a : Animation) : Nat := a.height

/-- Modelled from the spec: `pngine_anim_frame_count` returns the number of
frames rendered since creation. -/
def pngine_anim_frame_count (a : Animation) : Nat := a.frameCount

/-- Modelled from the spec: `pngine_anim_get_last_error` returns the last
error recorded for this animation. -/
def pngine_anim_get_last_error (a : Animation) : Int := a.lastError

/-- Modelled from the spec: `pngine_resize` reconfigures the swapchain for
the new dimensions and updates the animation's reported width/height
immediately; it touches nothing else of the animation state. -/
def pngine_resize (a : Animation) (w h : Nat) : Animation :=
  { a with width := w, height := h }

/-- Modelled from the spec: `pngine_anim_reset_counters` zeroes all
per-animation diagnostics counters without affecting the frame counter. -/
def pngine_anim_reset_counters (a : Animation) : Animation :=
  { a with counters := zeroCounters }

/-- Modelled from the spec: `pngine_anim_compute_counters` packs the four
compute counters into one uint32 as
[passes:8][pipelines:8][bindgroups:8][dispatches:8], each field wrapped to
its bit width. -/
def pngine_anim_compute_counters (a : Animation) : Nat :=
  a.counters.computePasses % 256 * 16777216
    + a.counters.computePipelines % 256 * 65536
    + a.counters.bindGroups % 256 * 256
    + a.counters.dispatches % 256

/-- Modelled from the spec: `pngine_anim_render_counters` packs the two
render counters into one uint32 as [render_passes:16][draws:16], each field
wrapped to its bit width. -/
def pngine_anim_render_counters (a : Animation) : Nat :=
  a.counters.renderPasses % 65536 * 65536 + a.counters.draws % 65536

/-- Modelled from the spec: `pngine_debug_render_pass_status` reports 0 when
no encoder or render pass remains open, 1 when an encoder is still active,
2 when a render pass is still active. -/
def pngine_debug_render_pass_status (a : Animation) : Int :=
  if a.encoderDepth ≠ 0 then 1
  else if a.passDepth ≠ 0 then 2
  else 0

-- ============================================================================
-- Frame executor, modelled from spec section 4.5 (state machine)
-- ============================================================================

/-- Modelled from the spec: the encoder / render-pass nesting depths tracked
while a frame is being encoded.  Opening the per-frame command encoder or a
pass increments a depth; closing decrements it. -/
structure EncState where
  encoderDepth : Nat
  passDepth : Nat

/-- Open the per-frame command encoder. -/
def beginEncoder (s : EncState) : EncState :=
  { s with encoderDepth := s.encoderDepth + 1 }

/-- Close the per-frame command encoder. -/
def endEncoder (s : EncState) : EncState :=
  { s with encoderDepth := s.encoderDepth - 1 }

/-- Open one compute or render pass. -/
def beginPass (s : EncState) : EncState :=
  { s with passDepth := s.passDepth + 1 }

/-- Close one compute or render pass. -/
def endPass (s : EncState) : EncState :=
  { s with passDepth := s.passDepth - 1 }

/-- Issue `n` passes in sequence, each opened and then closed. -/
def runPasses (n : Nat) (s : EncState) : EncState :=
  match n with
  | 0 => s
  | Nat.succ m => runPasses m (endPass (beginPass s))

/-- Modelled from the spec: the ways resource resolution can fail during
encoding (ResourceNotFound / PipelineCreate / ShaderCompile). -/
inductive ResolveFailure where
  | resourceNotFound
  | pipelineCreate
  | shaderCompile
deriving DecidableEq

/-- The error code recorded for a resource-resolution failure. -/
def resolveFailureCode (f : ResolveFailure) : Int :=
  match f with
  | ResolveFailure.resourceNotFound => PNGINE_ERROR_RESOURCE_NOT_FOUND
  | ResolveFailure.pipelineCreate => PNGINE_ERROR_PIPELINE_CREATE
  | ResolveFailure.shaderCompile => PNGINE_ERROR_SHADER_COMPILE

/-- Modelled from the spec: the environment of one frame execution — the
GPU outcomes (texture availability, resource resolution, compute and render
stage success) and the instruction counts selected from the Program's
timeline at the supplied time value. -/
structure FrameEnv where
  textureAvail : Bool
  resolve : Option ResolveFailure
  computeOk : Bool
  renderOk : Bool
  nComputePasses : Nat
  nComputePipelines : Nat
  nBindGroups : Nat
  nDispatches : Nat
  nRenderPasses : Nat
  nDraws : Nat

/-- Accumulate the compute-stage counter increments of one frame. -/
def addComputeCounters (c : Counters) (env : FrameEnv) : Counters :=
  { c with computePasses := c.computePasses + env.nComputePasses,
           computePipelines := c.computePipelines + env.nComputePipelines,
           bindGroups := c.bindGroups + env.nBindGroups,
           dispatches := c.dispatches + env.nDispatches }

/-- Accumulate the render-stage counter increments of one frame. -/
def addRenderCounters (c : Counters) (env : FrameEnv) : Counters :=
  { c with renderPasses := c.renderPasses + env.nRenderPasses,
           draws := c.draws + env.nDraws }

/-- Store the final encoder state of a frame into the animation and pair it
with the frame's result code. -/
def finishFrame (code : Int) (a : Animation) (s : EncState) : Int × Animation :=
  (code, { a with encoderDepth := s.encoderDepth, passDepth := s.passDepth })

/-- Modelled from the spec: the Encoding phase of the frame executor.  The
command encoder is already open in `s`; resource resolution happens first
(failure aborts the remaining instructions but still closes the encoder),
then the compute passes are issued before the render passes, and finally
the command stream is submitted and the frame counter incremented. -/
def encodeFrame (env : FrameEnv) (a : Animation) (s : EncState) : Int × Animation :=
  match env.resolve with
  | some f =>
      finishFrame (resolveFailureCode f)
        { a with lastError := resolveFailureCode f } (endEncoder s)
  | none =>
      let s1 := runPasses env.nComputePasses s
      let a1 := { a with counters := addComputeCounters a.counters env }
      if env.computeOk = false then
        finishFrame PNGINE_ERROR_COMPUTE_FAILED
          { a1 with lastError := PNGINE_ERROR_COMPUTE_FAILED } (endEncoder s1)
      else
        let s2 := runPasses env.nRenderPasses s1
        let a2 := { a1 with counters := addRenderCounters a1.counters env }
        if env.renderOk = false then
          finishFrame PNGINE_ERROR_RENDER_FAILED
            { a2 with lastError := PNGINE_ERROR_RENDER_FAILED } (endEncoder s2)
        else
          finishFrame PNGINE_OK
            { a2 with frameCount := a2.frameCount + 1 } (endEncoder s2)

/-- Modelled from the spec: one full frame execution.  Idle to Encoding
acquires a frame texture (failure yields TextureUnavail with no instructions
run), Encoding issues compute then render work, Encoding to Submitted
submits and presents, Submitted to Idle increments the frame counter by
exactly one.  Every path leaves no encoder or pass open. -/
def executeFrame (env : FrameEnv) (a : Animation) : Int × Animation :=
  if env.textureAvail = false then
    (PNGINE_ERROR_TEXTURE_UNAVAIL,
      { a with lastError := PNGINE_ERROR_TEXTURE_UNAVAIL,
               encoderDepth := 0, passDepth := 0 })
  else
    encodeFrame env a (beginEncoder { encoderDepth := 0, passDepth := 0 })

/-- Modelled from the spec: `pngine_render` renders one frame; it fails with
NotInitialized while the process-wide state is Uninitialized, otherwise it
runs the frame executor. -/
def pngine_render (g : GlobalState) (env : FrameEnv) (a : Animation) : Int × Animation :=
  if g.runtime = RuntimeState.ready then
    executeFrame env a
  else
    (PNGINE_ERROR_NOT_INITIALIZED, a)

/-- The status-code mapping of `pngine_debug_frame` documented in pngine.h
(0 = OK, -10 = texture unavailable, -13 = invalid resource, -14 = shader
compilation failed, -15 = pipeline creation failed, -99 = other error). -/
def debugFrameCode (e : Int) : Int :=
  if e = PNGINE_OK then 0
  else if e = PNGINE_ERROR_TEXTURE_UNAVAIL then -10
  else if e = PNGINE_ERROR_RESOURCE_NOT_FOUND then -13
  else if e = PNGINE_ERROR_SHADER_COMPILE then -14
  else if e = PNGINE_ERROR_PIPELINE_CREATE then -15
  else -99

/-- Modelled from the spec: `pngine_debug_frame` executes one frame exactly
like `pngine_render` and reports a fine-grained per-frame status code. -/
def pngine_debug_frame (g : GlobalState) (env : FrameEnv) (a : Animation) : Int × Animation :=
  (debugFrameCode (pngine_render g env a).1, (pngine_render g env a).2)

/-- Render a sequence of frames, one per frame environment. -/
def renderSeq (g : GlobalState) (envs : List FrameEnv) (a : Animation) : Animation :=
  match envs with
  | [] => a
  | e :: es => renderSeq g es (pngine_render g e a).2

/-- Whether every render call in the sequence returns PNGINE_OK. -/
def renderSeqAllOk (g : GlobalState) (envs : List FrameEnv) (a : Animation) : Bool :=
  match envs with
  | [] => true
  | e :: es =>
      decide ((pngine_render g e a).1 = PNGINE_OK)
        && renderSeqAllOk g es (pngine_render g e a).2

-- ============================================================================
-- Bytecode loader / validator and creation, modelled from spec sections
-- 4.2 and 6 (PNGB boundary contract)
-- ============================================================================

/-- Modelled from the spec: the PNGB magic marker bytes opening every valid
bytecode stream. -/
def pngbMagic : List Nat := [0x50, 0x4E, 0x47, 0x42]

/-- Modelled from the spec: the bytecode version the engine accepts. -/
def pngbVersion : Nat := 1

/-- Modelled from the spec: the magic/version check of the PNGB header — the
first validation stage, which must pass before any further interpretation
of the stream. -/
def checkMagicVersion (bytes : List Nat) : Bool :=
  decide (bytes.take 4 = pngbMagic) && decide (bytes.get? 4 = some pngbVersion)

/-- Modelled from the spec: the structural and referential-integrity stage
of validation — a resource-declaration count followed by timeline
instructions whose resource references must all resolve to declared
resource IDs. -/
def validateStructure (bytes : List Nat) : Bool :=
  match bytes.get? 5 with
  | none => false
  | some n => (bytes.drop 6).all (fun r => decide (r < n))

/-- Modelled from the spec: the result of `pngine_create` — the handle (or
none on failure), the reported error code, and the number of GPU resources
created as a side effect of the call. -/
structure CreateResult where
  anim : Option Animation
  err : Int
  gpuResourcesCreated : Nat

/-- Modelled from the spec: `pngine_create` fails with NotInitialized while
Uninitialized, rejects bytecode failing the magic/version check or the
structural checks with BytecodeInvalid (all-or-nothing, creating no GPU
resource), fails with SurfaceFailed when the surface cannot be bound, and
otherwise returns a fresh animation; GPU object creation is deferred to
first use, so even a successful create creates no GPU resource. -/
def pngine_create (g : GlobalState) (bytes : List Nat) (surfaceOk : Bool)
    (w h : Nat) : CreateResult :=
  if g.runtime ≠ RuntimeState.ready then
    { anim := none, err := PNGINE_ERROR_NOT_INITIALIZED, gpuResourcesCreated := 0 }
  else if checkMagicVersion bytes = false then
    { anim := none, err := PNGINE_ERROR_BYTECODE_INVALID, gpuResourcesCreated := 0 }
  else if validateStructure bytes = false then
    { anim := none, err := PNGINE_ERROR_BYTECODE_INVALID, gpuResourcesCreated := 0 }
  else if surfaceOk = false then
    { anim := none, err := PNGINE_ERROR_SURFACE_FAILED, gpuResourcesCreated := 0 }
  else
    { anim := some (initialAnimation w h), err := PNGINE_OK, gpuResourcesCreated := 0 }

-- ============================================================================
-- Error reporter, modelled from spec section 4.7
-- ============================================================================

/-- Modelled from the spec: `pngine_error_string` maps every defined error
code to its own static descriptive string (the descriptions follow the
header's documentation of each code) and every out-of-range value to an
unknown-error fallback string. -/
def pngine_error_string (e : Int) : String :=
  if e = 0 then "Success"
  else if e = -1 then "Not initialized"
  else if e = -2 then "Already initialized"
  else if e = -3 then "GPU context creation failed"
  else if e = -4 then "Invalid bytecode format"
  else if e = -5 then "Surface creation failed"
  else if e = -6 then "Shader compilation failed"
  else if e = -7 then "Pipeline creation failed"
  else if e = -8 then "Surface texture unavailable"
  else if e = -9 then "Resource ID not found"
  else if e = -10 then "Memory allocation failed"
  else if e = -11 then "Invalid argument"
  else if e = -12 then "Render pass failed"
  else if e = -13 then "Compute pass failed"
  else "Unknown error"

-- ============================================================================
-- Android JNI bridge, embedded from
-- `src/native/android/pngine-android/src/main/jni/pngine_jni.c`
-- ============================================================================

/-- One invocation of an engine entry point by the JNI bridge, recording the
handle value it was passed.  The `time` payload of a render call is the
unmodified jfloat bit pattern and the resize dimensions are the jint values
cast to uint32, all passed through untouched. -/
inductive EngineCall where
  | renderCall (anim : Int) (time : Nat)
  | resizeCall (anim : Int) (width : Int) (height : Int)
  | destroyCall (anim : Int)
deriving DecidableEq

/-- The animation-handle argument of an engine invocation. -/
def EngineCall.handle (c : EngineCall) : Int :=
  match c with
  | EngineCall.renderCall a _ => a
  | EngineCall.resizeCall a _ _ => a
  | EngineCall.destroyCall a => a

/-- Embeds `Java_com_pngine_PngineView_nativeRender`: casts the jlong to a
`PngineAnimation*` and calls `pngine_render` only when it is non-NULL.  The
returned list records the engine calls the wrapper makes. -/
def nativeRender (ptr : Int) (time : Nat) : List EngineCall :=
  if ptr ≠ 0 then [EngineCall.renderCall ptr time] else []

/-- Embeds `Java_com_pngine_PngineView_nativeResize`: casts the jlong to a
`PngineAnimation*` and calls `pngine_resize` only when it is non-NULL. -/
def nativeResize (ptr : Int) (width height : Int) : List EngineCall :=
  if ptr ≠ 0 then [EngineCall.resizeCall ptr width height] else []

/-- Embeds `Java_com_pngine_PngineView_nativeDestroy`: casts the jlong to a
`PngineAnimation*` and calls `pngine_destroy` only when it is non-NULL. -/
def nativeDestroy (ptr : Int) : List EngineCall :=
  if ptr ≠ 0 then [EngineCall.destroyCall ptr] else []

/-- The release mode passed to `ReleaseByteArrayElements`: `commit` (mode 0)
copies the pinned buffer back into the Java array, `abortNoCopy`
(`JNI_ABORT`) frees the pinned buffer without copying back. -/
inductive ReleaseMode where
  | commit
  | abortNoCopy
deriving DecidableEq

/-- JNI semantics of `ReleaseByteArrayElements`: the Java array after the
release, given the array's prior contents and the pinned buffer. -/
def releaseByteArrayElements (javaArray pinned : List Nat)
    (mode : ReleaseMode) : List Nat :=
  match mode with
  | ReleaseMode.commit => pinned
  | ReleaseMode.abortNoCopy => javaArray

/-- The observable outcome of `nativeCreate`: the jlong result returned to
Java, the bytecode array's contents after the call, and the release modes
of every `ReleaseByteArrayElements` call made. -/
structure NativeCreateOutcome where
  result : Int
  javaArray : List Nat
  releaseModes : List ReleaseMode

/-- Embeds `Java_com_pngine_PngineView_nativeCreate`: obtains the native
window from the Surface (returning 0 when that yields NULL, before any
array pinning), pins the bytecode array with `GetByteArrayElements`, calls
`pngine_create` (abstracted as `createFn`, whose jlong result may be 0 on
failure or non-zero on success) on the pinned bytes, and unconditionally
releases the array with `JNI_ABORT`. -/
def nativeCreate (window : Option Int) (createFn : List Nat → Int)
    (bytecode : List Nat) : NativeCreateOutcome :=
  match window with
  | none => { result := 0, javaArray := bytecode, releaseModes := [] }
  | some _ =>
      let pinned := bytecode
      let anim := createFn pinned
      { result := anim,
        javaArray := releaseByteArrayElements bytecode pinned ReleaseMode.abortNoCopy,
        releaseModes := [ReleaseMode.abortNoCopy] }

-- ============================================================================
-- Concrete states used by the witnesses
-- ============================================================================

/-- A ready process-wide runtime state. -/
def gReady : GlobalState := { runtime := RuntimeState.ready }

/-- An uninitialized process-wide runtime state. -/
def gUninit : GlobalState := { runtime := RuntimeState.uninitialized }

/-- A frame environment in which every GPU stage succeeds. -/
def envAllOk : FrameEnv :=
  { textureAvail := true, resolve := none, computeOk := true, renderOk := true,
    nComputePasses := 1, nComputePipelines := 1, nBindGroups := 2, nDispatches := 3,
    nRenderPasses := 1, nDraws := 4 }

/-- A frame environment in which the surface texture is unavailable. -/
def envNoTexture : FrameEnv := { envAllOk with textureAvail := false }

-- ============================================================================
-- Helper lemmas about the frame executor
-- ============================================================================

/-- Opening then closing a pass restores the encoder state. -/
theorem endPass_beginPass (s : EncState) : endPass (beginPass s) = s := by
  simp [beginPass, endPass]

/-- Issuing any number of balanced passes leaves the encoder state
unchanged. -/
theorem runPasses_eq (n : Nat) (s : EncState) : runPasses n s = s := by
  induction n with
  | zero => rfl
  | succ m ih =>
      show runPasses m (endPass (beginPass s)) = s
      rw [endPass_beginPass]
      exact ih

/-- A resource-resolution failure never carries the success code. -/
theorem resolveFailureCode_ne_ok (f : ResolveFailure) :
    resolveFailureCode f ≠ 0 := by
  cases f <;> decide

/-- Every path of the frame executor closes the encoder and all passes. -/
theorem executeFrame_depths (env : FrameEnv) (a : Animation) :
    (executeFrame env a).2.encoderDepth = 0 ∧ (executeFrame env a).2.passDepth = 0 := by
  unfold executeFrame encodeFrame finishFrame
  cases ht : env.textureAvail <;> cases hr : env.resolve <;>
    cases hc : env.computeOk <;> cases hk : env.renderOk <;>
      simp [runPasses_eq, beginEncoder, endEncoder]

/-- While the runtime is ready, a render call returns the animation with the
encoder and pass depths both zero. -/
theorem render_depths (g : GlobalState) (env : FrameEnv) (a : Animation)
    (hg : g.runtime = RuntimeState.ready) :
    (pngine_render g env a).2.encoderDepth = 0
    ∧ (pngine_render g env a).2.passDepth = 0 := by
  unfold pngine_render
  rw [hg]
  simpa using executeFrame_depths env a

/-- The frame counter increments by exactly one on a successful render and
stays unchanged on a failing one. -/
theorem render_frameCount (g : GlobalState) (env : FrameEnv) (a : Animation) :
    ((pngine_render g env a).1 = PNGINE_OK →
      (pngine_render g env a).2.frameCount = a.frameCount + 1)
    ∧ ((pngine_render g env a).1 ≠ PNGINE_OK →
      (pngine_render g env a).2.frameCount = a.frameCount) := by
  unfold pngine_render executeFrame encodeFrame finishFrame
  cases hg : g.runtime <;> cases ht : env.textureAvail <;> cases hr : env.resolve <;>
    cases hc : env.computeOk <;> cases hk : env.renderOk <;>
      simp [resolveFailureCode_ne_ok, PNGINE_OK, PNGINE_ERROR_NOT_INITIALIZED,
        PNGINE_ERROR_TEXTURE_UNAVAIL, PNGINE_ERROR_COMPUTE_FAILED,
        PNGINE_ERROR_RENDER_FAILED, addComputeCounters, addRenderCounters]

/-- A render call never changes the animation's reported dimensions. -/
theorem render_dims (g : GlobalState) (env : FrameEnv) (a : Animation) :
    (pngine_render g env a).2.width = a.width
    ∧ (pngine_render g env a).2.height = a.height := by
  unfold pngine_render executeFrame encodeFrame finishFrame
  cases hg : g.runtime <;> cases ht : env.textureAvail <;> cases hr : env.resolve <;>
    cases hc : env.computeOk <;> cases hk : env.renderOk <;> simp

/-- A sequence of render calls never changes the reported dimensions. -/
theorem renderSeq_dims (g : GlobalState) (envs : List FrameEnv) (a : Animation) :
    (renderSeq g envs a).width = a.width
    ∧ (renderSeq g envs a).height = a.height := by
  induction envs generalizing a with
  | nil => exact ⟨rfl, rfl⟩
  | cons e es ih =>
      show (renderSeq g es (pngine_render g e a).2).width = a.width
        ∧ (renderSeq g es (pngine_render g e a).2).height = a.height
      rw [(ih (pngine_render g e a).2).1, (ih (pngine_render g e a).2).2,
        (render_dims g e a).1, (render_dims g e a).2]
      exact ⟨rfl, rfl⟩

/-- A render call never decreases any diagnostics counter. -/
theorem render_counters_mono (g : GlobalState) (env : FrameEnv) (a : Animation) :
    a.counters.computePasses ≤ (pngine_render g env a).2.counters.computePasses
    ∧ a.counters.computePipelines ≤ (pngine_render g env a).2.counters.computePipelines
    ∧ a.counters.bindGroups ≤ (pngine_render g env a).2.counters.bindGroups
    ∧ a.counters.dispatches ≤ (pngine_render g env a).2.counters.dispatches
    ∧ a.counters.renderPasses ≤ (pngine_render g env a).2.counters.renderPasses
    ∧ a.counters.draws ≤ (pngine_render g env a).2.counters.draws := by
  unfold pngine_render executeFrame encodeFrame finishFrame
  cases hg : g.runtime <;> cases ht : env.textureAvail <;> cases hr : env.resolve <;>
    cases hc : env.computeOk <;> cases hk : env.renderOk <;>
      simp [addComputeCounters, addRenderCounters]

-- ============================================================================
-- Claim theorems
-- ============================================================================

/-- C1: after any `pngine_render` or `pngine_debug_frame` call returns —
whether it returns PNGINE_OK or an error code — `pngine_debug_render_pass_status`
on that animation returns 0 (properly cleaned up), never 1 (encoder still
active) or 2 (render pass still active). -/
theorem c1_render_pass_always_clean (g : GlobalState) (env : FrameEnv) (a : Animation)
    (hE : a.encoderDepth = 0) (hP : a.passDepth = 0) :
    pngine_debug_render_pass_status (pngine_render g env a).2 = 0
    ∧ pngine_debug_render_pass_status (pngine_debug_frame g env a).2 = 0 := by
  have key : (pngine_render g env a).2.encoderDepth = 0
      ∧ (pngine_render g env a).2.passDepth = 0 := by
    cases hg : g.runtime
    · unfold pngine_render
      rw [hg]
      simp [hE, hP]
    · exact render_depths g env a hg
  constructor
  · simp [pngine_debug_render_pass_status, key.1, key.2]
  · simp [pngine_debug_frame, pngine_debug_render_pass_status, key.1, key.2]

/-- Witness for C1 at a concrete ready state, all-success environment and
fresh animation. -/
theorem c1_render_pass_always_clean_witness :
    pngine_debug_render_pass_status (pngine_render gReady envAllOk (initialAnimation 8 6)).2 = 0
    ∧ pngine_debug_render_pass_status
        (pngine_debug_frame gReady envAllOk (initialAnimation 8 6)).2 = 0 :=
  c1_render_pass_always_clean gReady envAllOk (initialAnimation 8 6) rfl rfl

/-- C2: N successive `pngine_render` calls that each return PNGINE_OK
increase `pngine_anim_frame_count` by exactly N, and a `pngine_render` call
returning an error code leaves `pngine_anim_frame_count` unchanged. -/
theorem c2_frame_count (g : GlobalState) (a : Animation) (envs : List FrameEnv)
    (env : FrameEnv) :
    (renderSeqAllOk g envs a = true →
      pngine_anim_frame_count (renderSeq g envs a)
        = pngine_anim_frame_count a + envs.length)
    ∧ ((pngine_render g env a).1 ≠ PNGINE_OK →
      pngine_anim_frame_count (pngine_render g env a).2
        = pngine_anim_frame_count a) := by
  constructor
  · induction envs generalizing a with
    | nil =>
        intro _
        simp [renderSeq]
    | cons e es ih =>
        intro h
        unfold renderSeqAllOk at h
        rw [Bool.and_eq_true] at h
        have hok : (pngine_render g e a).1 = PNGINE_OK := of_decide_eq_true h.1
        show pngine_anim_frame_count (renderSeq g es (pngine_render g e a).2)
          = pngine_anim_frame_count a + (e :: es).length
        rw [ih (pngine_render g e a).2 h.2]
        unfold pngine_anim_frame_count
        rw [(render_frameCount g e a).1 hok]
        simp [List.length]
        omega
  · intro h
    exact (render_frameCount g env a).2 h

/-- Witness for C2: two successful frames from a fresh animation raise the
frame count from 0 to 2, and a texture-unavailable frame leaves it at 0. -/
theorem c2_frame_count_witness :
    pngine_anim_frame_count (renderSeq gReady [envAllOk, envAllOk] (initialAnimation 2 2))
      = pngine_anim_frame_count (initialAnimation 2 2) + [envAllOk, envAllOk].length
    ∧ pngine_anim_frame_count (pngine_render gReady envNoTexture (initialAnimation 2 2)).2
      = pngine_anim_frame_count (initialAnimation 2 2) :=
  ⟨(c2_frame_count gReady (initialAnimation 2 2) [envAllOk, envAllOk] envNoTexture).1
      (by decide),
   (c2_frame_count gReady (initialAnimation 2 2) [envAllOk, envAllOk] envNoTexture).2
      (by decide)⟩

/-- C3: for every byte buffer failing the magic/version check,
`pngine_create` returns no handle, reports PNGINE_ERROR_BYTECODE_INVALID,
and creates no GPU resource as a side effect. -/
theorem c3_bad_magic_create (g : GlobalState) (bytes : List Nat) (surfaceOk : Bool)
    (w h : Nat) (hg : g.runtime = RuntimeState.ready)
    (hbad : checkMagicVersion bytes = false) :
    (pngine_create g bytes surfaceOk w h).anim = none
    ∧ (pngine_create g bytes surfaceOk w h).err = PNGINE_ERROR_BYTECODE_INVALID
    ∧ (pngine_create g bytes surfaceOk w h).gpuResourcesCreated = 0 := by
  unfold pngine_create
  rw [hg, hbad]
  simp

/-- Witness for C3 on a concrete corrupted buffer. -/
theorem c3_bad_magic_create_witness :
    (pngine_create gReady [9, 9, 9] true 4 4).anim = none
    ∧ (pngine_create gReady [9, 9, 9] true 4 4).err = PNGINE_ERROR_BYTECODE_INVALID
    ∧ (pngine_create gReady [9, 9, 9] true 4 4).gpuResourcesCreated = 0 :=
  c3_bad_magic_create gReady [9, 9, 9] true 4 4 rfl (by decide)

/-- C4: immediately after `pngine_resize(anim, w2, h2)`, `pngine_get_width`
returns exactly w2 and `pngine_get_height` returns exactly h2, independent
of whether (and how many times) `pngine_render` was called between the
resize and the queries. -/
theorem c4_resize_dimensions (a : Animation) (w2 h2 : Nat) (g : GlobalState)
    (envs : List FrameEnv) :
    pngine_get_width (pngine_resize a w2 h2) = w2
    ∧ pngine_get_height (pngine_resize a w2 h2) = h2
    ∧ pngine_get_width (renderSeq g envs (pngine_resize a w2 h2)) = w2
    ∧ pngine_get_height (renderSeq g envs (pngine_resize a w2 h2)) = h2 := by
  refine ⟨rfl, rfl, ?_, ?_⟩
  · unfold pngine_get_width
    rw [(renderSeq_dims g envs (pngine_resize a w2 h2)).1]
    rfl
  · unfold pngine_get_height
    rw [(renderSeq_dims g envs (pngine_resize a w2 h2)).2]
    rfl

/-- C5: `pngine_anim_reset_counters` zeroes all per-animation compute and
render counters (immediately following `pngine_anim_compute_counters` and
`pngine_anim_render_counters` both return 0 in every packed field) while
leaving `pngine_anim_frame_count` unchanged; `pngine_resize` preserves the
counters exactly, and a render call (which acquires a new frame) never
decreases any counter — the counters are never implicitly reset. -/
theorem c5_reset_counters (a : Animation) (w h : Nat) (g : GlobalState)
    (env : FrameEnv) :
    pngine_anim_compute_counters (pngine_anim_reset_counters a) = 0
    ∧ pngine_anim_render_counters (pngine_anim_reset_counters a) = 0
    ∧ pngine_anim_frame_count (pngine_anim_reset_counters a)
        = pngine_anim_frame_count a
    ∧ pngine_anim_compute_counters (pngine_resize a w h)
        = pngine_anim_compute_counters a
    ∧ pngine_anim_render_counters (pngine_resize a w h)
        = pngine_anim_render_counters a
    ∧ pngine_anim_frame_count (pngine_resize a w h) = pngine_anim_frame_count a
    ∧ a.counters.computePasses ≤ (pngine_render g env a).2.counters.computePasses
    ∧ a.counters.computePipelines ≤ (pngine_render g env a).2.counters.computePipelines
    ∧ a.counters.bindGroups ≤ (pngine_render g env a).2.counters.bindGroups
    ∧ a.counters.dispatches ≤ (pngine_render g env a).2.counters.dispatches
    ∧ a.counters.renderPasses ≤ (pngine_render g env a).2.counters.renderPasses
    ∧ a.counters.draws ≤ (pngine_render g env a).2.counters.draws := by
  have hm := render_counters_mono g env a
  refine ⟨?_, ?_, rfl, ?_, ?_, rfl,
    hm.1, hm.2.1, hm.2.2.1, hm.2.2.2.1, hm.2.2.2.2.1, hm.2.2.2.2.2⟩
  · simp [pngine_anim_reset_counters, pngine_anim_compute_counters, zeroCounters]
  · simp [pngine_anim_reset_counters, pngine_anim_render_counters, zeroCounters]
  · simp [pngine_resize, pngine_anim_compute_counters]
  · simp [pngine_resize, pngine_anim_render_counters]

/-- C6: `pngine_anim_compute_counters` is the four compute counters packed
into one uint32 as [passes:8][pipelines:8][bindgroups:8][dispatches:8] and
`pngine_anim_render_counters` is the two render counters packed as
[render_passes:16][draws:16]; each counter is confined to its allotted bit
width, as witnessed by the field extractions and the uint32 bound. -/
theorem c6_packed_counters (a : Animation) :
    pngine_anim_compute_counters a < 4294967296
    ∧ pngine_anim_compute_counters a / 16777216 % 256 = a.counters.computePasses % 256
    ∧ pngine_anim_compute_counters a / 65536 % 256 = a.counters.computePipelines % 256
    ∧ pngine_anim_compute_counters a / 256 % 256 = a.counters.bindGroups % 256
    ∧ pngine_anim_compute_counters a % 256 = a.counters.dispatches % 256
    ∧ pngine_anim_render_counters a < 4294967296
    ∧ pngine_anim_render_counters a / 65536 = a.counters.renderPasses % 65536
    ∧ pngine_anim_render_counters a % 65536 = a.counters.draws % 65536 := by
  unfold pngine_anim_compute_counters pngine_anim_render_counters
  omega

/-- C7: `pngine_init` called while the process-wide state is Ready fails
with PNGINE_ERROR_ALREADY_INITIALIZED and leaves the state unchanged, and
any `pngine_render` or `pngine_create` call made while the state is
Uninitialized fails with PNGINE_ERROR_NOT_INITIALIZED (for create, a null
handle). -/
theorem c7_lifecycle (g : GlobalState) (ctxOk : Bool) (env : FrameEnv)
    (a : Animation) (bytes : List Nat) (surfaceOk : Bool) (w h : Nat) :
    (g.runtime = RuntimeState.ready →
      pngine_init ctxOk g = (PNGINE_ERROR_ALREADY_INITIALIZED, g))
    ∧ (g.runtime = RuntimeState.uninitialized →
      (pngine_render g env a).1 = PNGINE_ERROR_NOT_INITIALIZED
      ∧ (pngine_create g bytes surfaceOk w h).anim = none
      ∧ (pngine_create g bytes surfaceOk w h).err = PNGINE_ERROR_NOT_INITIALIZED) := by
  constructor
  · intro hg
    unfold pngine_init
    rw [hg]
    simp
  · intro hg
    unfold pngine_render pngine_create
    rw [hg]
    simp

/-- Witness for C7 at concrete ready and uninitialized states. -/
theorem c7_lifecycle_witness :
    pngine_init true gReady = (PNGINE_ERROR_ALREADY_INITIALIZED, gReady)
    ∧ (pngine_render gUninit envAllOk (initialAnimation 1 1)).1
        = PNGINE_ERROR_NOT_INITIALIZED
    ∧ (pngine_create gUninit [] true 1 1).anim = none
    ∧ (pngine_create gUninit [] true 1 1).err = PNGINE_ERROR_NOT_INITIALIZED :=
  ⟨(c7_lifecycle gReady true envAllOk (initialAnimation 1 1) [] true 1 1).1 rfl,
   (c7_lifecycle gUninit true envAllOk (initialAnimation 1 1) [] true 1 1).2 rfl⟩

/-- Out-of-range error codes hit the fallback branch of the string table. -/
theorem pngine_error_string_fallback (e : Int) (h : e ∉ definedErrorCodes) :
    pngine_error_string e = "Unknown error" := by
  simp [definedErrorCodes] at h
  obtain ⟨h0, h1, h2, h3, h4, h5, h6, h7, h8, h9, h10, h11, h12, h13⟩ := h
  unfold pngine_error_string
  split_ifs
  rfl

/-- Every error code, defined or not, maps to a non-empty string. -/
theorem pngine_error_string_nonempty (x : Int) : pngine_error_string x ≠ "" := by
  by_cases hx : x ∈ definedErrorCodes
  · simp [definedErrorCodes] at hx
    rcases hx with rfl | rfl | rfl | rfl | rfl | rfl | rfl | rfl | rfl | rfl
      | rfl | rfl | rfl | rfl <;> decide
  · rw [pngine_error_string_fallback x hx]
    decide

/-- C8: `pngine_error_string` is total on Int and returns a non-empty
static descriptive string: the fourteen defined error codes map to fourteen
pairwise-distinct descriptive strings, and every out-of-range value maps to
the unknown-error fallback string. -/
theorem c8_error_string (e : Int) (h : e ∉ definedErrorCodes) :
    definedErrorCodes.map pngine_error_string =
      ["Success", "Not initialized", "Already initialized",
       "GPU context creation failed", "Invalid bytecode format",
       "Surface creation failed", "Shader compilation failed",
       "Pipeline creation failed", "Surface texture unavailable",
       "Resource ID not found", "Memory allocation failed",
       "Invalid argument", "Render pass failed", "Compute pass failed"]
    ∧ (definedErrorCodes.map pngine_error_string).Nodup
    ∧ pngine_error_string e = "Unknown error"
    ∧ (∀ x : Int, pngine_error_string x ≠ "") :=
  ⟨by decide, by decide, pngine_error_string_fallback e h,
   pngine_error_string_nonempty⟩

/-- Witness for C8 at the out-of-range code 5. -/
theorem c8_error_string_witness :
    pngine_error_string 5 = "Unknown error" :=
  (c8_error_string 5 (by decide)).2.2.1

/-- C9: in the Android JNI bridge, `nativeRender`, `nativeResize` and
`nativeDestroy` called with a zero (null) animation handle are no-ops —
they emit no engine call — and every engine call they ever emit carries a
non-NULL `PngineAnimation*` handle. -/
theorem c9_null_handle_noop (ptr : Int) (time : Nat) (w h : Int) :
    nativeRender 0 time = []
    ∧ nativeResize 0 w h = []
    ∧ nativeDestroy 0 = []
    ∧ ((nativeRender ptr time).all fun c => decide (c.handle ≠ 0)) = true
    ∧ ((nativeResize ptr w h).all fun c => decide (c.handle ≠ 0)) = true
    ∧ ((nativeDestroy ptr).all fun c => decide (c.handle ≠ 0)) = true := by
  refine ⟨by simp [nativeRender], by simp [nativeResize], by simp [nativeDestroy],
    ?_, ?_, ?_⟩
  · by_cases hp : ptr = 0 <;> simp [nativeRender, hp, EngineCall.handle]
  · by_cases hp : ptr = 0 <;> simp [nativeResize, hp, EngineCall.handle]
  · by_cases hp : ptr = 0 <;> simp [nativeDestroy, hp, EngineCall.handle]

/-- C10: `nativeCreate` never modifies the caller's bytecode array — the
Java array holds the same bytes after the call as before, every
`ReleaseByteArrayElements` call it makes uses `JNI_ABORT` (no copy-back)
regardless of the `pngine_create` result, and the window-NULL early return
pins nothing and releases nothing. -/
theorem c10_create_array_preserved (window : Option Int)
    (createFn : List Nat → Int) (bytecode : List Nat) (w : Int) :
    (nativeCreate window createFn bytecode).javaArray = bytecode
    ∧ (nativeCreate (some w) createFn bytecode).releaseModes
        = [ReleaseMode.abortNoCopy]
    ∧ (nativeCreate none createFn bytecode).releaseModes = []
    ∧ (nativeCreate none createFn bytecode).result = 0
    ∧ (nativeCreate (some w) createFn bytecode).result = createFn bytecode := by
  refine ⟨?_, rfl, rfl, rfl, rfl⟩
  cases window <;> rfl
